import Mathlib

/-!
Verification of the label fade-transition engine of harp.gl.

The development shallowly embeds the `RenderState` class of
`mapview/lib/text/RenderState.ts` (the per-label fading state machine) and,
for the claims about the per-frame placement orchestrator whose
implementation is not part of the sources at hand (only its test suite is),
a model of the orchestrator built from the design document.

Numbers that are IEEE doubles in the source are modelled as rationals; frame
numbers are integers (`Number.MIN_SAFE_INTEGER` is kept literally).
-/

namespace Harp

/-- State of fading, mirroring `enum FadingState` of the source. -/
inductive FadingState where
  | Undefined
  | FadingIn
  | FadedIn
  | FadingOut
  | FadedOut
deriving DecidableEq, Repr, BEq

/-- Time to fade in/fade out the labels in milliseconds (`DEFAULT_FADE_TIME`). -/
def DEFAULT_FADE_TIME : ℚ := 800

/-- JavaScript `Number.MIN_SAFE_INTEGER`, the initial `lastFrameNumber`. -/
def MIN_SAFE_INTEGER : ℤ := -(2 ^ 53 - 1)

/-- Minimum of two rationals, written so that the kernel can evaluate it. -/
def qmin (a b : ℚ) : ℚ := if a ≤ b then a else b

/-- Maximum of two rationals, written so that the kernel can evaluate it. -/
def qmax (a b : ℚ) : ℚ := if a ≤ b then b else a

/-- Clamp of three.js (`THREE.Math.clamp(value, min, max)`),
`Math.max(min, Math.min(max, value))`. -/
def clamp (value lo hi : ℚ) : ℚ := qmax lo (qmin hi value)

/-- Modelled from the spec: `MathUtils.smootherStep(edge0, edge1, x)` of
`@here/harp-utils` (package of this repository, not among the sources at
hand).  The spec calls it "the smoother-step-eased interpolation between the
state's start/end opacity": the position of `x` between the edges is clamped
to `[0, 1]` and eased by the quintic `6t^5 - 15t^4 + 10t^3`.  Because the
quintic satisfies `s (1 - t) = 1 - s t`, this agrees with the reading
`edge0 + (edge1 - edge0) * s t` on the interpolations used below. -/
def smootherStep (edge0 edge1 x : ℚ) : ℚ :=
  let t := clamp ((x - edge0) / (edge1 - edge0)) 0 1
  t * t * t * (t * (t * 6 - 15) + 10)

/-- State of rendering of the icon or text part of a `TextElement`
(class `RenderState` of the source, its private fields included). -/
structure RenderState where
  m_state : FadingState
  m_visible : Bool
  value : ℚ
  startTime : ℚ
  opacity : ℚ
  lastFrameNumber : ℤ
deriving DecidableEq, Repr

/-- A `RenderState` as built by the constructor with its default arguments:
`value = 0`, `startTime = 0`, `opacity = 1`,
`lastFrameNumber = Number.MIN_SAFE_INTEGER`. -/
def RenderState.new : RenderState :=
  { m_state := FadingState.Undefined
    m_visible := false
    value := 0
    startTime := 0
    opacity := 1
    lastFrameNumber := MIN_SAFE_INTEGER }

/-- `RenderState.reset`: reset the state to appear like a fresh state. -/
def RenderState.reset (_rs : RenderState) : RenderState := RenderState.new

/-- `RenderState.isFading`: fading in or fading out. -/
def RenderState.isFading (rs : RenderState) : Bool :=
  rs.m_state == FadingState.FadingIn || rs.m_state == FadingState.FadingOut

/-- `RenderState.isVisible`: the private visibility flag. -/
def RenderState.isVisible (rs : RenderState) : Bool := rs.m_visible

/-- `RenderState.startFadeIn(frameNumber, time)`.  A stale state (not updated
on the preceding frame) is reset first; `FadingIn`/`FadedIn` are left
unchanged; reversing a `FadingOut` state updates `value` to `1 - value`
first and then back-dates `startTime` to `time - value * DEFAULT_FADE_TIME`
with the updated `value`. -/
def RenderState.startFadeIn (rs : RenderState) (frameNumber : ℤ) (time : ℚ) :
    RenderState :=
  let r0 := if rs.lastFrameNumber < frameNumber - 1 then rs.reset else rs
  if r0.m_state = FadingState.FadingIn ∨ r0.m_state = FadingState.FadedIn then
    r0
  else if r0.m_state = FadingState.FadingOut then
    { r0 with
      value := 1 - r0.value
      startTime := time - (1 - r0.value) * DEFAULT_FADE_TIME
      m_state := FadingState.FadingIn
      m_visible := true }
  else
    { r0 with
      startTime := time
      value := 0
      opacity := 0
      m_state := FadingState.FadingIn
      m_visible := true }

/-- `RenderState.startFadeOut(frameNumber, time)`.  A stale state is reset
first; `FadingOut`/`FadedOut` are left unchanged; reversing a `FadingIn`
state back-dates `startTime` to `time - value * DEFAULT_FADE_TIME` with the
OLD `value` and only then updates `value` to `1 - value` (the source updates
the two fields in this order).  The visibility flag is not touched. -/
def RenderState.startFadeOut (rs : RenderState) (frameNumber : ℤ) (time : ℚ) :
    RenderState :=
  let r0 := if rs.lastFrameNumber < frameNumber - 1 then rs.reset else rs
  if r0.m_state = FadingState.FadingOut ∨ r0.m_state = FadingState.FadedOut then
    r0
  else if r0.m_state = FadingState.FadingIn then
    { r0 with
      startTime := time - r0.value * DEFAULT_FADE_TIME
      value := 1 - r0.value
      m_state := FadingState.FadingOut }
  else
    { r0 with
      startTime := time
      value := 0
      opacity := 1
      m_state := FadingState.FadingOut }

/-- `RenderState.checkStartFadeIn(frameNumber, time, forceFadeIn)`:
start a fade-in if forced, undefined or stale; always stamp
`lastFrameNumber`; return `isFading()`. -/
def RenderState.checkStartFadeIn (rs : RenderState) (frameNumber : ℤ)
    (time : ℚ) (forceFadeIn : Bool) : RenderState × Bool :=
  let r0 :=
    if forceFadeIn = true ∨ rs.m_state = FadingState.Undefined ∨
        rs.lastFrameNumber < frameNumber - 1 then
      rs.startFadeIn frameNumber time
    else rs
  let r1 := { r0 with lastFrameNumber := frameNumber }
  (r1, r1.isFading)

/-- `RenderState.checkStartFadeOut(frameNumber, time, forceFadeOut)`:
start a fade-out if forced, undefined or stale; always stamp
`lastFrameNumber`; return `isFading()`.  (The source's default for
`forceFadeOut` is `true`.) -/
def RenderState.checkStartFadeOut (rs : RenderState) (frameNumber : ℤ)
    (time : ℚ) (forceFadeOut : Bool) : RenderState × Bool :=
  let r0 :=
    if forceFadeOut = true ∨ rs.m_state = FadingState.Undefined ∨
        rs.lastFrameNumber < frameNumber - 1 then
      rs.startFadeOut frameNumber time
    else rs
  let r1 := { r0 with lastFrameNumber := frameNumber }
  (r1, r1.isFading)

/-- `RenderState.updateFading(time, disableFading)`: a no-op unless fading;
a `startTime` of `0` is first overwritten with `time`; if fading is disabled
or the elapsed time reached `DEFAULT_FADE_TIME` the state snaps to the
terminal state with opacity exactly the end value, else progress and a
clamped smoother-step opacity are recomputed.  Returns the visibility flag
after the update (the pair's second component). -/
def RenderState.updateFading (rs : RenderState) (time : ℚ)
    (disableFading : Bool) : RenderState × Bool :=
  if rs.m_state = FadingState.FadingIn ∨ rs.m_state = FadingState.FadingOut then
    let r0 := if rs.startTime = 0 then { rs with startTime := time } else rs
    let fadingTime := time - r0.startTime
    let startValue : ℚ := if r0.m_state = FadingState.FadingIn then 0 else 1
    let endValue : ℚ := if r0.m_state = FadingState.FadingIn then 1 else 0
    if disableFading = true ∨ DEFAULT_FADE_TIME ≤ fadingTime then
      let newState :=
        if r0.m_state = FadingState.FadingIn then FadingState.FadedIn
        else FadingState.FadedOut
      let r1 :=
        { r0 with
          value := 1
          opacity := endValue
          m_state := newState
          m_visible := newState == FadingState.FadedIn }
      (r1, r1.m_visible)
    else
      let r1 :=
        { r0 with
          value := fadingTime / DEFAULT_FADE_TIME
          opacity :=
            clamp (smootherStep startValue endValue
              (fadingTime / DEFAULT_FADE_TIME)) 0 1 }
      (r1, r1.m_visible)
  else
    (rs, rs.m_visible)

/-- Opacity of a fade-in at progress `v`, as computed by `updateFading`. -/
def fadeInOpacity (v : ℚ) : ℚ := clamp (smootherStep 0 1 v) 0 1

/-- Opacity of a fade-out at progress `v`, as computed by `updateFading`. -/
def fadeOutOpacity (v : ℚ) : ℚ := clamp (smootherStep 1 0 v) 0 1

/-- One call to a mutating operation of `RenderState`, with its arguments. -/
inductive Op where
  | reset
  | startFadeIn (frameNumber : ℤ) (time : ℚ)
  | startFadeOut (frameNumber : ℤ) (time : ℚ)
  | checkStartFadeIn (frameNumber : ℤ) (time : ℚ) (force : Bool)
  | checkStartFadeOut (frameNumber : ℤ) (time : ℚ) (force : Bool)
  | updateFading (time : ℚ) (disableFading : Bool)

/-- Effect of one operation call on the state. -/
def applyOp (rs : RenderState) : Op → RenderState
  | Op.reset => rs.reset
  | Op.startFadeIn f t => rs.startFadeIn f t
  | Op.startFadeOut f t => rs.startFadeOut f t
  | Op.checkStartFadeIn f t force => (rs.checkStartFadeIn f t force).1
  | Op.checkStartFadeOut f t force => (rs.checkStartFadeOut f t force).1
  | Op.updateFading t d => (rs.updateFading t d).1

/-- State after a sequence of operation calls. -/
def runOps (rs : RenderState) (ops : List Op) : RenderState :=
  ops.foldl applyOp rs

/-- A candidate label of the placement model: its text content (the
deduplication identity key) and the fading state of its text part. -/
structure TLabel where
  text : String
  rs : RenderState

/-- Per-frame input of the placement model: the frame number, the frame
time, which tiles (by index) are visited this frame, and which candidates
(by rank index) collide with an already-allocated screen box this frame. -/
structure FrameInput where
  frameNumber : ℤ
  time : ℚ
  visited : ℕ → Bool
  collide : ℕ → Bool

/-- Modelled from the spec: step 5 of the per-frame placement algorithm of
the placement orchestrator (`TextElementsRenderer`, whose implementation is
not among the sources at hand, only its test suite).  A placed candidate's
fade state is driven by `checkStartFadeIn`, a non-placed (collided,
deduplicated-out) one by `checkStartFadeOut` (with the source's default
force arguments), and the fade is then advanced by `updateFading` with the
frame time. -/
def driveLabel (placed : Bool) (frameNumber : ℤ) (time : ℚ)
    (rs : RenderState) : RenderState :=
  let r0 :=
    if placed then (rs.checkStartFadeIn frameNumber time false).1
    else (rs.checkStartFadeOut frameNumber time true).1
  (r0.updateFading time false).1

/-- Modelled from the spec: steps 3 and 4 of the placement algorithm for the
candidates of the visited tiles, taken in rank order (descending priority,
then ascending distance — the model takes the candidate list already in this
order).  `seen` holds the identity keys of higher-ranked candidates of this
frame: a candidate sharing its text with one of them is deduplicated out and
is ineligible this visitation; otherwise it is placed unless the occupancy
tracker reports a collision for its rank index. -/
def driveCandidates (frameNumber : ℤ) (time : ℚ) (collide : ℕ → Bool) :
    List TLabel → List String → ℕ → List TLabel
  | [], _, _ => []
  | l :: ls, seen, idx =>
    let placed := !(decide (l.text ∈ seen)) && !(collide idx)
    { l with rs := driveLabel placed frameNumber time l.rs } ::
      driveCandidates frameNumber time collide ls (l.text :: seen) (idx + 1)

/-- Modelled from the spec: one placement pass over the tiles.  Candidates
of tiles visited this frame are driven (with deduplication against the
higher-ranked visited candidates); candidates of tiles not visited this
frame are left untouched. -/
def placeTiles (fi : FrameInput) :
    List (List TLabel) → ℕ → List String → ℕ → List (List TLabel)
  | [], _, _, _ => []
  | tl :: ts, tileIdx, seen, idx =>
    if fi.visited tileIdx then
      driveCandidates fi.frameNumber fi.time fi.collide tl seen idx ::
        placeTiles fi ts (tileIdx + 1)
          (seen ++ tl.map (fun l => l.text)) (idx + tl.length)
    else
      tl :: placeTiles fi ts (tileIdx + 1) seen idx

/-- Modelled from the spec: the per-frame entry point of the placement
model. -/
def placeFrame (fi : FrameInput) (tiles : List (List TLabel)) :
    List (List TLabel) :=
  placeTiles fi tiles 0 [] 0

/-- Modelled from the spec: a run of the placement orchestrator over a
sequence of frames. -/
def runFrames (frames : List FrameInput) (tiles : List (List TLabel)) :
    List (List TLabel) :=
  frames.foldl (fun ts fi => placeFrame fi ts) tiles

/-- The opacity invariant of the spec: opacity stays in `[0, 1]`. -/
def opacityInUnit (rs : RenderState) : Prop :=
  0 ≤ rs.opacity ∧ rs.opacity ≤ 1

/-- The visibility-flag invariant: the flag is raised in `FadingIn` and
`FadedIn` and lowered in `Undefined` and `FadedOut`; in `FadingOut` it
retains the value it had when the fade-out started. -/
def visibleInv (rs : RenderState) : Prop :=
  ((rs.m_state = FadingState.FadingIn ∨ rs.m_state = FadingState.FadedIn) →
    rs.m_visible = true) ∧
  ((rs.m_state = FadingState.Undefined ∨ rs.m_state = FadingState.FadedOut) →
    rs.m_visible = false)

/-- Modelled from the spec: the frames of the end-to-end fade-in scenario —
one tile with one point-text label, placement passes at frame times 1, 267,
400 and 801, the tile always visited, no collisions. -/
def fadeCycleFrames : List FrameInput :=
  [{ frameNumber := 1, time := 1, visited := fun _ => true,
     collide := fun _ => false },
   { frameNumber := 2, time := 267, visited := fun _ => true,
     collide := fun _ => false },
   { frameNumber := 3, time := 400, visited := fun _ => true,
     collide := fun _ => false },
   { frameNumber := 4, time := 801, visited := fun _ => true,
     collide := fun _ => false }]

/-- State of the scenario of `fadeCycleFrames` after its first `n` frames. -/
def fadeCycleRun (n : ℕ) : List (List TLabel) :=
  runFrames (fadeCycleFrames.take n)
    [[{ text := "P", rs := RenderState.new }]]

/-- The label's fade state after the first `n` frames of the scenario. -/
def fadeCycleState (n : ℕ) : Option RenderState :=
  (fadeCycleRun n).head?.bind fun tl => tl.head?.map fun l => l.rs

/-! Basic facts about the clamp. -/

theorem qmin_eq_min (a b : ℚ) : qmin a b = min a b := (min_def a b).symm

theorem qmax_eq_max (a b : ℚ) : qmax a b = max a b := (max_def a b).symm

theorem clamp_unit_mem (x : ℚ) : 0 ≤ clamp x 0 1 ∧ clamp x 0 1 ≤ 1 := by
  rw [clamp, qmax_eq_max, qmin_eq_min]
  exact ⟨le_max_left 0 _, max_le zero_le_one (min_le_left 1 x)⟩

theorem reset_opacity (rs : RenderState) : opacityInUnit rs.reset := by
  constructor <;> norm_num [RenderState.reset, RenderState.new, opacityInUnit]

theorem startFadeIn_opacity (rs : RenderState) (f : ℤ) (t : ℚ)
    (h : opacityInUnit rs) : opacityInUnit (rs.startFadeIn f t) := by
  have hr := reset_opacity rs
  by_cases hst : rs.lastFrameNumber < f - 1 <;>
    simp only [RenderState.startFadeIn, hst, if_true, if_false, ite_true,
      ite_false, opacityInUnit] <;>
    split_ifs <;>
    simp_all [opacityInUnit]

theorem startFadeOut_opacity (rs : RenderState) (f : ℤ) (t : ℚ)
    (h : opacityInUnit rs) : opacityInUnit (rs.startFadeOut f t) := by
  have hr := reset_opacity rs
  by_cases hst : rs.lastFrameNumber < f - 1 <;>
    simp only [RenderState.startFadeOut, hst, if_true, if_false, ite_true,
      ite_false, opacityInUnit] <;>
    split_ifs <;>
    simp_all [opacityInUnit]

theorem updateFading_opacity (rs : RenderState) (t : ℚ) (d : Bool)
    (h : opacityInUnit rs) : opacityInUnit (rs.updateFading t d).1 := by
  simp only [RenderState.updateFading, opacityInUnit] at h ⊢
  split_ifs <;> simp_all <;> exact clamp_unit_mem _

theorem checkStartFadeIn_opacity (rs : RenderState) (f : ℤ) (t : ℚ)
    (force : Bool) (h : opacityInUnit rs) :
    opacityInUnit (rs.checkStartFadeIn f t force).1 := by
  have hs := startFadeIn_opacity rs f t h
  simp only [RenderState.checkStartFadeIn, opacityInUnit] at hs h ⊢
  split_ifs <;> simp_all

theorem checkStartFadeOut_opacity (rs : RenderState) (f : ℤ) (t : ℚ)
    (force : Bool) (h : opacityInUnit rs) :
    opacityInUnit (rs.checkStartFadeOut f t force).1 := by
  have hs := startFadeOut_opacity rs f t h
  simp only [RenderState.checkStartFadeOut, opacityInUnit] at hs h ⊢
  split_ifs <;> simp_all

theorem applyOp_opacity (rs : RenderState) (o : Op) (h : opacityInUnit rs) :
    opacityInUnit (applyOp rs o) := by
  cases o with
  | reset => exact reset_opacity rs
  | startFadeIn f t => exact startFadeIn_opacity rs f t h
  | startFadeOut f t => exact startFadeOut_opacity rs f t h
  | checkStartFadeIn f t force => exact checkStartFadeIn_opacity rs f t force h
  | checkStartFadeOut f t force => exact checkStartFadeOut_opacity rs f t force h
  | updateFading t d => exact updateFading_opacity rs t d h

theorem runOps_opacity (ops : List Op) (rs : RenderState)
    (h : opacityInUnit rs) : opacityInUnit (runOps rs ops) := by
  induction ops generalizing rs with
  | nil => exact h
  | cons o ops ih => exact ih (applyOp rs o) (applyOp_opacity rs o h)

/-- Claim C2: for every sequence of calls to the operations of a
default-constructed `RenderState` (reset, startFadeIn, startFadeOut,
checkStartFadeIn, checkStartFadeOut, updateFading, with any time and frame
arguments), the opacity field is in `[0, 1]` after every call (every prefix
of the sequence is itself such a sequence). -/
theorem opacity_always_in_unit (ops : List Op) :
    0 ≤ (runOps RenderState.new ops).opacity ∧
      (runOps RenderState.new ops).opacity ≤ 1 :=
  runOps_opacity ops RenderState.new
    ⟨by norm_num [RenderState.new], by norm_num [RenderState.new]⟩

/-- Claim C4: a stale state (last frame number older than the previous
frame) is reset by `startFadeIn`/`startFadeOut` and a fresh transition is
started: opacity exactly `0` for the fade-in and exactly `1` for the
fade-out, `startTime = time`, `value = 0` (and discrete state `FadingIn`
resp. `FadingOut`, with the frame stamp back at its fresh value). -/
theorem stale_start_reseeds (rs : RenderState) (f : ℤ) (t : ℚ)
    (h : rs.lastFrameNumber < f - 1) :
    rs.startFadeIn f t =
      { m_state := FadingState.FadingIn, m_visible := true, value := 0,
        startTime := t, opacity := 0, lastFrameNumber := MIN_SAFE_INTEGER } ∧
    rs.startFadeOut f t =
      { m_state := FadingState.FadingOut, m_visible := false, value := 0,
        startTime := t, opacity := 1, lastFrameNumber := MIN_SAFE_INTEGER } := by
  constructor <;>
    simp [RenderState.startFadeIn, RenderState.startFadeOut, h,
      RenderState.reset, RenderState.new]

/-- Witness for C4 at a concrete stale state. -/
theorem stale_start_reseeds_w :
    RenderState.new.startFadeIn 0 5 =
      { m_state := FadingState.FadingIn, m_visible := true, value := 0,
        startTime := 5, opacity := 0, lastFrameNumber := MIN_SAFE_INTEGER } ∧
    RenderState.new.startFadeOut 0 5 =
      { m_state := FadingState.FadingOut, m_visible := false, value := 0,
        startTime := 5, opacity := 1, lastFrameNumber := MIN_SAFE_INTEGER } :=
  stale_start_reseeds RenderState.new 0 5 (by decide)

/-- Claim C5: on a non-stale state, `startFadeIn` is a no-op when already
`FadingIn` or `FadedIn`, and `startFadeOut` is a no-op when already
`FadingOut` or `FadedOut` — every field is left unchanged. -/
theorem matching_start_idempotent (rs : RenderState) (f : ℤ) (t : ℚ)
    (h : ¬ rs.lastFrameNumber < f - 1) :
    ((rs.m_state = FadingState.FadingIn ∨ rs.m_state = FadingState.FadedIn) →
      rs.startFadeIn f t = rs) ∧
    ((rs.m_state = FadingState.FadingOut ∨ rs.m_state = FadingState.FadedOut) →
      rs.startFadeOut f t = rs) := by
  refine ⟨fun hs => ?_, fun hs => ?_⟩
  · rcases hs with hs | hs <;> simp [RenderState.startFadeIn, h, hs]
  · rcases hs with hs | hs <;> simp [RenderState.startFadeOut, h, hs]

/-- Witness for C5 at concrete non-stale mid-fade states. -/
theorem matching_start_idempotent_w :
    RenderState.startFadeIn
        { m_state := FadingState.FadingIn, m_visible := true, value := 1 / 2,
          startTime := 100, opacity := 1 / 2, lastFrameNumber := 5 } 6 300 =
      { m_state := FadingState.FadingIn, m_visible := true, value := 1 / 2,
        startTime := 100, opacity := 1 / 2, lastFrameNumber := 5 } ∧
    RenderState.startFadeOut
        { m_state := FadingState.FadedOut, m_visible := false, value := 1,
          startTime := 100, opacity := 0, lastFrameNumber := 5 } 6 300 =
      { m_state := FadingState.FadedOut, m_visible := false, value := 1,
        startTime := 100, opacity := 0, lastFrameNumber := 5 } :=
  ⟨(matching_start_idempotent _ 6 300 (by decide)).1 (Or.inl rfl),
   (matching_start_idempotent _ 6 300 (by decide)).2 (Or.inr rfl)⟩

/-- Helper: on a fading state whose `startTime` is `0`, `updateFading`
behaves exactly as on the same state with `startTime = time`. -/
theorem updateFading_zero_start (rs : RenderState) (t : ℚ) (d : Bool)
    (hf : rs.m_state = FadingState.FadingIn ∨
      rs.m_state = FadingState.FadingOut)
    (h0 : rs.startTime = 0) :
    rs.updateFading t d = ({ rs with startTime := t }).updateFading t d := by
  by_cases ht : t = 0
  · subst ht
    have hrs : ({ rs with startTime := 0 } : RenderState) = rs := by
      cases rs; simp_all
    rw [hrs]
  · rcases hf with hf | hf <;>
      simp [RenderState.updateFading, hf, h0, ht]

/-- Claim C10: the time value `0` is a reserved sentinel.  On a fading state
whose `startTime` is `0`, `updateFading` first overwrites `startTime` with
the given time — the call behaves exactly as on the same state with
`startTime = time`, the stored `startTime` becomes `time`, and (fading not
disabled) the elapsed time of this update is `0`, so progress restarts from
`value = 0` at this first update call. -/
theorem zero_startTime_sentinel (rs : RenderState) (t : ℚ) (d : Bool)
    (hf : rs.m_state = FadingState.FadingIn ∨
      rs.m_state = FadingState.FadingOut)
    (h0 : rs.startTime = 0) :
    rs.updateFading t d = ({ rs with startTime := t }).updateFading t d ∧
    (rs.updateFading t d).1.startTime = t ∧
    (d = false → (rs.updateFading t d).1.value = 0) := by
  refine ⟨updateFading_zero_start rs t d hf h0, ?_, ?_⟩
  · rcases hf with hf | hf <;>
      simp [RenderState.updateFading, hf, h0] <;> split_ifs <;> simp
  · intro hd
    subst hd
    rcases hf with hf | hf <;>
      norm_num [RenderState.updateFading, hf, h0, DEFAULT_FADE_TIME]

/-- Witness for C10 at a concrete fading state with `startTime = 0`. -/
theorem zero_startTime_sentinel_w :
    RenderState.updateFading
        { m_state := FadingState.FadingIn, m_visible := true, value := 0,
          startTime := 0, opacity := 0, lastFrameNumber := 0 } 50 false =
      RenderState.updateFading
        { m_state := FadingState.FadingIn, m_visible := true, value := 0,
          startTime := 50, opacity := 0, lastFrameNumber := 0 } 50 false ∧
    (RenderState.updateFading
        { m_state := FadingState.FadingIn, m_visible := true, value := 0,
          startTime := 0, opacity := 0, lastFrameNumber := 0 }
        50 false).1.startTime = 50 ∧
    (false = false →
      (RenderState.updateFading
          { m_state := FadingState.FadingIn, m_visible := true, value := 0,
            startTime := 0, opacity := 0, lastFrameNumber := 0 }
          50 false).1.value = 0) :=
  zero_startTime_sentinel _ 50 false (Or.inl rfl) rfl

/-- Counterexample to claim C3 as stated: a `FadingIn` state with
`startTime = 0` (reachable by `startFadeIn` at time `0`), updated at time
`400`: the elapsed time `400 - startTime = 400` is below the duration, yet
the progress is not set to `(time - startTime) / 800 = 1/2` — the sentinel
overwrite measures it from the update call itself, giving `0`. -/
theorem updateFading_elapsed_cex :
    (RenderState.new.startFadeIn 0 0).m_state = FadingState.FadingIn ∧
    400 - (RenderState.new.startFadeIn 0 0).startTime < DEFAULT_FADE_TIME ∧
    ((RenderState.new.startFadeIn 0 0).updateFading 400 false).1.value ≠
      (400 - (RenderState.new.startFadeIn 0 0).startTime) /
        DEFAULT_FADE_TIME := by
  have h1 : RenderState.new.startFadeIn 0 0 =
      { m_state := FadingState.FadingIn, m_visible := true, value := 0,
        startTime := 0, opacity := 0,
        lastFrameNumber := MIN_SAFE_INTEGER } := by
    simp [RenderState.startFadeIn, RenderState.reset, RenderState.new,
      MIN_SAFE_INTEGER]
  rw [h1]
  refine ⟨rfl, by norm_num [DEFAULT_FADE_TIME], ?_⟩
  norm_num [RenderState.updateFading, DEFAULT_FADE_TIME]

/-- Helper: a mid-fade `updateFading` on a `FadingIn` state (no sentinel,
elapsed below the duration) recomputes progress and opacity. -/
theorem updateFading_run_in (rs : RenderState) (t : ℚ)
    (hf : rs.m_state = FadingState.FadingIn) (h0 : rs.startTime ≠ 0)
    (hlt : t - rs.startTime < DEFAULT_FADE_TIME) :
    (rs.updateFading t false).1.m_state = FadingState.FadingIn ∧
    (rs.updateFading t false).1.value =
      (t - rs.startTime) / DEFAULT_FADE_TIME ∧
    (rs.updateFading t false).1.opacity =
      fadeInOpacity ((t - rs.startTime) / DEFAULT_FADE_TIME) ∧
    (rs.updateFading t false).1.m_visible = rs.m_visible := by
  simp [RenderState.updateFading, hf, h0, not_le.mpr hlt, fadeInOpacity]

/-- Helper: a mid-fade `updateFading` on a `FadingOut` state (no sentinel,
elapsed below the duration) recomputes progress and opacity. -/
theorem updateFading_run_out (rs : RenderState) (t : ℚ)
    (hf : rs.m_state = FadingState.FadingOut) (h0 : rs.startTime ≠ 0)
    (hlt : t - rs.startTime < DEFAULT_FADE_TIME) :
    (rs.updateFading t false).1.m_state = FadingState.FadingOut ∧
    (rs.updateFading t false).1.value =
      (t - rs.startTime) / DEFAULT_FADE_TIME ∧
    (rs.updateFading t false).1.opacity =
      fadeOutOpacity ((t - rs.startTime) / DEFAULT_FADE_TIME) ∧
    (rs.updateFading t false).1.m_visible = rs.m_visible := by
  simp [RenderState.updateFading, hf, h0, not_le.mpr hlt, fadeOutOpacity]

/-- Claim C3 as amended: `updateFading(time, disableFading)` leaves the
state unchanged unless the discrete state is `FadingIn` or `FadingOut`; a
fading state with the reserved `startTime = 0` behaves as if its
`startTime` were `time` (the sentinel is overwritten first); otherwise,
if fading is disabled or `time - startTime ≥ 800`, the state snaps to the
terminal state (`FadedIn` with opacity exactly `1` for `FadingIn`,
`FadedOut` with opacity exactly `0` for `FadingOut`); else the progress
becomes `(time - startTime) / 800` and the opacity the clamped
smoother-step interpolation between the transition's start and end
opacities at that progress. -/
theorem updateFading_characterization (rs : RenderState) (t : ℚ) (d : Bool) :
    (¬ (rs.m_state = FadingState.FadingIn ∨
        rs.m_state = FadingState.FadingOut) →
      rs.updateFading t d = (rs, rs.m_visible)) ∧
    ((rs.m_state = FadingState.FadingIn ∨
        rs.m_state = FadingState.FadingOut) →
      rs.startTime = 0 →
      rs.updateFading t d = ({ rs with startTime := t }).updateFading t d) ∧
    (rs.m_state = FadingState.FadingIn → rs.startTime ≠ 0 →
      (d = true ∨ DEFAULT_FADE_TIME ≤ t - rs.startTime) →
      (rs.updateFading t d).1.m_state = FadingState.FadedIn ∧
      (rs.updateFading t d).1.opacity = 1) ∧
    (rs.m_state = FadingState.FadingOut → rs.startTime ≠ 0 →
      (d = true ∨ DEFAULT_FADE_TIME ≤ t - rs.startTime) →
      (rs.updateFading t d).1.m_state = FadingState.FadedOut ∧
      (rs.updateFading t d).1.opacity = 0) ∧
    (rs.m_state = FadingState.FadingIn → rs.startTime ≠ 0 → d = false →
      t - rs.startTime < DEFAULT_FADE_TIME →
      (rs.updateFading t d).1.m_state = FadingState.FadingIn ∧
      (rs.updateFading t d).1.value = (t - rs.startTime) / DEFAULT_FADE_TIME ∧
      (rs.updateFading t d).1.opacity =
        fadeInOpacity ((t - rs.startTime) / DEFAULT_FADE_TIME)) ∧
    (rs.m_state = FadingState.FadingOut → rs.startTime ≠ 0 → d = false →
      t - rs.startTime < DEFAULT_FADE_TIME →
      (rs.updateFading t d).1.m_state = FadingState.FadingOut ∧
      (rs.updateFading t d).1.value = (t - rs.startTime) / DEFAULT_FADE_TIME ∧
      (rs.updateFading t d).1.opacity =
        fadeOutOpacity ((t - rs.startTime) / DEFAULT_FADE_TIME)) := by
  refine ⟨?_, ?_, ?_, ?_, ?_, ?_⟩
  · intro hn
    simp [RenderState.updateFading, hn]
  · exact updateFading_zero_start rs t d
  · intro hf h0 hc
    simp [RenderState.updateFading, hf, h0, hc]
  · intro hf h0 hc
    simp [RenderState.updateFading, hf, h0, hc]
  · intro hf h0 hd hlt
    subst hd
    obtain ⟨h1, h2, h3, _h4⟩ := updateFading_run_in rs t hf h0 hlt
    exact ⟨h1, h2, h3⟩
  · intro hf h0 hd hlt
    subst hd
    obtain ⟨h1, h2, h3, _h4⟩ := updateFading_run_out rs t hf h0 hlt
    exact ⟨h1, h2, h3⟩

/-- Witness for C3 as amended, at concrete states exercising each case. -/
theorem updateFading_characterization_w :
    (RenderState.new.updateFading 100 false =
      (RenderState.new, RenderState.new.m_visible)) ∧
    (RenderState.updateFading
        { m_state := FadingState.FadingIn, m_visible := true, value := 0,
          startTime := 0, opacity := 0, lastFrameNumber := 0 } 50 false =
      RenderState.updateFading
        { m_state := FadingState.FadingIn, m_visible := true, value := 0,
          startTime := 50, opacity := 0, lastFrameNumber := 0 } 50 false) ∧
    ((RenderState.updateFading
        { m_state := FadingState.FadingIn, m_visible := true, value := 1 / 2,
          startTime := 100, opacity := 1 / 2, lastFrameNumber := 0 }
        900 false).1.m_state = FadingState.FadedIn ∧
      (RenderState.updateFading
        { m_state := FadingState.FadingIn, m_visible := true, value := 1 / 2,
          startTime := 100, opacity := 1 / 2, lastFrameNumber := 0 }
        900 false).1.opacity = 1) ∧
    ((RenderState.updateFading
        { m_state := FadingState.FadingOut, m_visible := true, value := 1 / 2,
          startTime := 100, opacity := 1 / 2, lastFrameNumber := 0 }
        900 false).1.m_state = FadingState.FadedOut ∧
      (RenderState.updateFading
        { m_state := FadingState.FadingOut, m_visible := true, value := 1 / 2,
          startTime := 100, opacity := 1 / 2, lastFrameNumber := 0 }
        900 false).1.opacity = 0) ∧
    ((RenderState.updateFading
        { m_state := FadingState.FadingIn, m_visible := true, value := 0,
          startTime := 100, opacity := 0, lastFrameNumber := 0 }
        500 false).1.m_state = FadingState.FadingIn ∧
      (RenderState.updateFading
        { m_state := FadingState.FadingIn, m_visible := true, value := 0,
          startTime := 100, opacity := 0, lastFrameNumber := 0 }
        500 false).1.value = (500 - 100) / DEFAULT_FADE_TIME ∧
      (RenderState.updateFading
        { m_state := FadingState.FadingIn, m_visible := true, value := 0,
          startTime := 100, opacity := 0, lastFrameNumber := 0 }
        500 false).1.opacity =
        fadeInOpacity ((500 - 100) / DEFAULT_FADE_TIME)) ∧
    ((RenderState.updateFading
        { m_state := FadingState.FadingOut, m_visible := true, value := 0,
          startTime := 100, opacity := 1, lastFrameNumber := 0 }
        500 false).1.m_state = FadingState.FadingOut ∧
      (RenderState.updateFading
        { m_state := FadingState.FadingOut, m_visible := true, value := 0,
          startTime := 100, opacity := 1, lastFrameNumber := 0 }
        500 false).1.value = (500 - 100) / DEFAULT_FADE_TIME ∧
      (RenderState.updateFading
        { m_state := FadingState.FadingOut, m_visible := true, value := 0,
          startTime := 100, opacity := 1, lastFrameNumber := 0 }
        500 false).1.opacity =
        fadeOutOpacity ((500 - 100) / DEFAULT_FADE_TIME)) :=
  ⟨(updateFading_characterization RenderState.new 100 false).1 (by decide),
   (updateFading_characterization _ 50 false).2.1 (Or.inl rfl) rfl,
   (updateFading_characterization _ 900 false).2.2.1 rfl (by norm_num)
     (Or.inr (by norm_num [DEFAULT_FADE_TIME])),
   (updateFading_characterization _ 900 false).2.2.2.1 rfl (by norm_num)
     (Or.inr (by norm_num [DEFAULT_FADE_TIME])),
   (updateFading_characterization _ 500 false).2.2.2.2.1 rfl (by norm_num)
     rfl (by norm_num [DEFAULT_FADE_TIME]),
   (updateFading_characterization _ 500 false).2.2.2.2.2 rfl (by norm_num)
     rfl (by norm_num [DEFAULT_FADE_TIME])⟩

theorem smootherStep_one_zero (x : ℚ) :
    smootherStep 1 0 x = smootherStep 0 1 (1 - x) := by
  have h : ((x - 1) / (0 - 1) : ℚ) = (1 - x - 0) / (1 - 0) := by ring
  simp only [smootherStep, h]

theorem fadeInOpacity_one_sub (v : ℚ) :
    fadeInOpacity (1 - v) = fadeOutOpacity v := by
  rw [fadeInOpacity, fadeOutOpacity, smootherStep_one_zero]

/-- Claim C1 as amended: reversing a fade mid-transition on a non-stale
state sets the new progress to `1 - value` in both directions, but the two
directions differ.  `startFadeIn` on a `FadingOut` state back-dates the
virtual start time to `time - value' * duration` with the NEW progress
`value' = 1 - value`, so the opacity computed by the next `updateFading` at
the reversal time equals the opacity immediately before the reversal (no
jump).  `startFadeOut` on a `FadingIn` state instead back-dates the start
time with the OLD progress, `time - value * duration`; the next
`updateFading` at the reversal time therefore recomputes the progress as
the old `value` and the opacity as the fade-out opacity at that progress
(`1 - s(value)` instead of the pre-reversal `s(value)`), which coincides
with the pre-reversal opacity only at `value = 1/2`. -/
theorem reversal_behavior (rs : RenderState) (f : ℤ) (t : ℚ)
    (hns : ¬ rs.lastFrameNumber < f - 1) :
    (rs.m_state = FadingState.FadingOut →
      (rs.startFadeIn f t).m_state = FadingState.FadingIn ∧
      (rs.startFadeIn f t).value = 1 - rs.value ∧
      (rs.startFadeIn f t).startTime =
        t - (1 - rs.value) * DEFAULT_FADE_TIME ∧
      (0 < rs.value → (rs.startFadeIn f t).startTime ≠ 0 →
        rs.opacity = fadeOutOpacity rs.value →
        ((rs.startFadeIn f t).updateFading t false).1.opacity =
          rs.opacity)) ∧
    (rs.m_state = FadingState.FadingIn →
      (rs.startFadeOut f t).m_state = FadingState.FadingOut ∧
      (rs.startFadeOut f t).value = 1 - rs.value ∧
      (rs.startFadeOut f t).startTime = t - rs.value * DEFAULT_FADE_TIME ∧
      (rs.value < 1 → (rs.startFadeOut f t).startTime ≠ 0 →
        ((rs.startFadeOut f t).updateFading t false).1.value = rs.value ∧
        ((rs.startFadeOut f t).updateFading t false).1.opacity =
          fadeOutOpacity rs.value)) := by
  constructor
  · intro hf
    have e1 : rs.startFadeIn f t =
        { rs with
          value := 1 - rs.value
          startTime := t - (1 - rs.value) * DEFAULT_FADE_TIME
          m_state := FadingState.FadingIn
          m_visible := true } := by
      simp [RenderState.startFadeIn, hns, hf]
    refine ⟨by rw [e1], by rw [e1], by rw [e1], ?_⟩
    intro hv h0 hop
    rw [e1] at h0 ⊢
    have h0' : ({ rs with
        value := 1 - rs.value
        startTime := t - (1 - rs.value) * DEFAULT_FADE_TIME
        m_state := FadingState.FadingIn
        m_visible := true } : RenderState).startTime ≠ 0 := h0
    have hlt : t - ({ rs with
        value := 1 - rs.value
        startTime := t - (1 - rs.value) * DEFAULT_FADE_TIME
        m_state := FadingState.FadingIn
        m_visible := true } : RenderState).startTime < DEFAULT_FADE_TIME := by
      show t - (t - (1 - rs.value) * DEFAULT_FADE_TIME) < DEFAULT_FADE_TIME
      rw [DEFAULT_FADE_TIME]
      nlinarith
    have hu := updateFading_run_in _ t rfl h0' hlt
    calc ((({ rs with
            value := 1 - rs.value
            startTime := t - (1 - rs.value) * DEFAULT_FADE_TIME
            m_state := FadingState.FadingIn
            m_visible := true } : RenderState)).updateFading t
          false).1.opacity
        = fadeInOpacity ((t - ({ rs with
            value := 1 - rs.value
            startTime := t - (1 - rs.value) * DEFAULT_FADE_TIME
            m_state := FadingState.FadingIn
            m_visible := true } : RenderState).startTime) /
          DEFAULT_FADE_TIME) := hu.2.2.1
      _ = fadeInOpacity (1 - rs.value) := by
          congr 1
          show (t - (t - (1 - rs.value) * DEFAULT_FADE_TIME)) /
            DEFAULT_FADE_TIME = 1 - rs.value
          rw [DEFAULT_FADE_TIME]
          ring
      _ = fadeOutOpacity rs.value := fadeInOpacity_one_sub rs.value
      _ = rs.opacity := hop.symm
  · intro hf
    have e2 : rs.startFadeOut f t =
        { rs with
          startTime := t - rs.value * DEFAULT_FADE_TIME
          value := 1 - rs.value
          m_state := FadingState.FadingOut } := by
      simp [RenderState.startFadeOut, hns, hf]
    refine ⟨by rw [e2], by rw [e2], by rw [e2], ?_⟩
    intro hv h0
    rw [e2] at h0 ⊢
    have h0' : ({ rs with
        startTime := t - rs.value * DEFAULT_FADE_TIME
        value := 1 - rs.value
        m_state := FadingState.FadingOut } : RenderState).startTime ≠ 0 := h0
    have hlt : t - ({ rs with
        startTime := t - rs.value * DEFAULT_FADE_TIME
        value := 1 - rs.value
        m_state := FadingState.FadingOut } :
          RenderState).startTime < DEFAULT_FADE_TIME := by
      show t - (t - rs.value * DEFAULT_FADE_TIME) < DEFAULT_FADE_TIME
      rw [DEFAULT_FADE_TIME]
      nlinarith
    have hu := updateFading_run_out _ t rfl h0' hlt
    have harg : (t - ({ rs with
        startTime := t - rs.value * DEFAULT_FADE_TIME
        value := 1 - rs.value
        m_state := FadingState.FadingOut } : RenderState).startTime) /
          DEFAULT_FADE_TIME = rs.value := by
      show (t - (t - rs.value * DEFAULT_FADE_TIME)) /
        DEFAULT_FADE_TIME = rs.value
      rw [DEFAULT_FADE_TIME]
      ring
    refine ⟨?_, ?_⟩
    · rw [hu.2.1, harg]
    · rw [hu.2.2.1, harg]

/-- Counterexample to claim C1 as stated: a consistent, non-stale `FadingIn`
state at progress `1/4` (opacity `53/512`) asked to fade out at time `1200`.
The new start time is `1000 = time - old_value * duration`, not
`time - new_value * duration = 600`, and the opacity computed by the next
`updateFading` at the reversal time is `459/512`, not the pre-reversal
`53/512` — the fade jumps. -/
theorem reversal_cex :
    ¬ (RenderState.lastFrameNumber
        { m_state := FadingState.FadingIn, m_visible := true, value := 1 / 4,
          startTime := 1000, opacity := 53 / 512, lastFrameNumber := 0 } <
        1 - 1) ∧
    RenderState.m_state
        { m_state := FadingState.FadingIn, m_visible := true, value := 1 / 4,
          startTime := 1000, opacity := 53 / 512, lastFrameNumber := 0 } =
      FadingState.FadingIn ∧
    (53 / 512 : ℚ) = fadeInOpacity (1 / 4) ∧
    (RenderState.startFadeOut
        { m_state := FadingState.FadingIn, m_visible := true, value := 1 / 4,
          startTime := 1000, opacity := 53 / 512, lastFrameNumber := 0 }
        1 1200).startTime ≠
      1200 -
        (RenderState.startFadeOut
          { m_state := FadingState.FadingIn, m_visible := true,
            value := 1 / 4, startTime := 1000, opacity := 53 / 512,
            lastFrameNumber := 0 } 1 1200).value * DEFAULT_FADE_TIME ∧
    ((RenderState.startFadeOut
        { m_state := FadingState.FadingIn, m_visible := true, value := 1 / 4,
          startTime := 1000, opacity := 53 / 512, lastFrameNumber := 0 }
        1 1200).updateFading 1200 false).1.opacity ≠ 53 / 512 := by
  have e : RenderState.startFadeOut
      { m_state := FadingState.FadingIn, m_visible := true, value := 1 / 4,
        startTime := 1000, opacity := 53 / 512, lastFrameNumber := 0 }
      1 1200 =
      { m_state := FadingState.FadingOut, m_visible := true, value := 3 / 4,
        startTime := 1000, opacity := 53 / 512, lastFrameNumber := 0 } := by
    simp only [RenderState.startFadeOut]
    norm_num [DEFAULT_FADE_TIME]
    decide
  have hu := updateFading_run_out
    { m_state := FadingState.FadingOut, m_visible := true, value := 3 / 4,
      startTime := 1000, opacity := 53 / 512, lastFrameNumber := 0 }
    1200 rfl (by norm_num) (by norm_num [DEFAULT_FADE_TIME])
  refine ⟨by decide, rfl,
    by norm_num [fadeInOpacity, smootherStep, clamp, qmin, qmax], ?_, ?_⟩
  · rw [e]
    norm_num [DEFAULT_FADE_TIME]
  · rw [e, hu.2.2.1]
    norm_num [fadeOutOpacity, smootherStep, clamp, qmin, qmax,
      DEFAULT_FADE_TIME]

/-- Witness for C1 as amended, at concrete mid-transition states. -/
theorem reversal_behavior_w :
    ((RenderState.startFadeIn
        { m_state := FadingState.FadingOut, m_visible := true, value := 1 / 4,
          startTime := 900, opacity := 459 / 512, lastFrameNumber := 0 }
        1 1300).m_state = FadingState.FadingIn ∧
      (RenderState.startFadeIn
        { m_state := FadingState.FadingOut, m_visible := true, value := 1 / 4,
          startTime := 900, opacity := 459 / 512, lastFrameNumber := 0 }
        1 1300).value = 1 - 1 / 4 ∧
      (RenderState.startFadeIn
        { m_state := FadingState.FadingOut, m_visible := true, value := 1 / 4,
          startTime := 900, opacity := 459 / 512, lastFrameNumber := 0 }
        1 1300).startTime = 1300 - (1 - 1 / 4) * DEFAULT_FADE_TIME ∧
      ((RenderState.startFadeIn
        { m_state := FadingState.FadingOut, m_visible := true, value := 1 / 4,
          startTime := 900, opacity := 459 / 512, lastFrameNumber := 0 }
        1 1300).updateFading 1300 false).1.opacity = 459 / 512) ∧
    ((RenderState.startFadeOut
        { m_state := FadingState.FadingIn, m_visible := true, value := 1 / 4,
          startTime := 900, opacity := 53 / 512, lastFrameNumber := 0 }
        1 1300).m_state = FadingState.FadingOut ∧
      (RenderState.startFadeOut
        { m_state := FadingState.FadingIn, m_visible := true, value := 1 / 4,
          startTime := 900, opacity := 53 / 512, lastFrameNumber := 0 }
        1 1300).value = 1 - 1 / 4 ∧
      (RenderState.startFadeOut
        { m_state := FadingState.FadingIn, m_visible := true, value := 1 / 4,
          startTime := 900, opacity := 53 / 512, lastFrameNumber := 0 }
        1 1300).startTime = 1300 - 1 / 4 * DEFAULT_FADE_TIME ∧
      ((RenderState.startFadeOut
        { m_state := FadingState.FadingIn, m_visible := true, value := 1 / 4,
          startTime := 900, opacity := 53 / 512, lastFrameNumber := 0 }
        1 1300).updateFading 1300 false).1.value = 1 / 4 ∧
      ((RenderState.startFadeOut
        { m_state := FadingState.FadingIn, m_visible := true, value := 1 / 4,
          startTime := 900, opacity := 53 / 512, lastFrameNumber := 0 }
        1 1300).updateFading 1300 false).1.opacity =
        fadeOutOpacity (1 / 4)) := by
  have hB := (reversal_behavior
    { m_state := FadingState.FadingOut, m_visible := true, value := 1 / 4,
      startTime := 900, opacity := 459 / 512, lastFrameNumber := 0 }
    1 1300 (by decide)).1 rfl
  have hC := (reversal_behavior
    { m_state := FadingState.FadingIn, m_visible := true, value := 1 / 4,
      startTime := 900, opacity := 53 / 512, lastFrameNumber := 0 }
    1 1300 (by decide)).2 rfl
  have hBop := hB.2.2.2 (by norm_num)
    (by rw [hB.2.2.1]; norm_num [DEFAULT_FADE_TIME])
    (by norm_num [fadeOutOpacity, smootherStep, clamp, qmin, qmax])
  have hCop := hC.2.2.2 (by norm_num)
    (by rw [hC.2.2.1]; norm_num [DEFAULT_FADE_TIME])
  exact ⟨⟨hB.1, hB.2.1, hB.2.2.1, hBop⟩,
    ⟨hC.1, hC.2.1, hC.2.2.1, hCop.1, hCop.2⟩⟩

/-- Helper: `updateFading` returns the visibility flag of the state it
produced. -/
theorem updateFading_snd (rs : RenderState) (t : ℚ) (d : Bool) :
    (rs.updateFading t d).2 = (rs.updateFading t d).1.m_visible := by
  simp only [RenderState.updateFading]
  split_ifs <;> rfl

/-- Counterexample to claim C6 as stated: a fade-out started on a fresh
(`Undefined`, never faded-in) state.  After `updateFading` the discrete
state is `FadingOut`, yet the call returns `false` (the visibility flag was
never raised), so the return value is not true for every `FadingOut`
state. -/
theorem updateFading_visible_cex :
    ((RenderState.new.startFadeOut 0 100).updateFading 150 false).1.m_state =
      FadingState.FadingOut ∧
    ((RenderState.new.startFadeOut 0 100).updateFading 150 false).2 =
      false := by
  have e : RenderState.new.startFadeOut 0 100 =
      { m_state := FadingState.FadingOut, m_visible := false, value := 0,
        startTime := 100, opacity := 1,
        lastFrameNumber := MIN_SAFE_INTEGER } := by
    simp [RenderState.startFadeOut, RenderState.reset, RenderState.new,
      MIN_SAFE_INTEGER]
  have hu := updateFading_run_out
    { m_state := FadingState.FadingOut, m_visible := false, value := 0,
      startTime := 100, opacity := 1, lastFrameNumber := MIN_SAFE_INTEGER }
    150 rfl (by norm_num) (by norm_num [DEFAULT_FADE_TIME])
  constructor
  · rw [e]
    exact hu.1
  · rw [e, updateFading_snd, hu.2.2.2]

theorem visibleInv_new : visibleInv RenderState.new := by
  constructor <;> rintro (h | h) <;> simp [RenderState.new] at h ⊢

theorem visibleInv_startFadeIn (rs : RenderState) (f : ℤ) (t : ℚ)
    (h : visibleInv rs) : visibleInv (rs.startFadeIn f t) := by
  obtain ⟨h1, h2⟩ := h
  by_cases hst : rs.lastFrameNumber < f - 1
  · simp [RenderState.startFadeIn, hst, RenderState.reset, RenderState.new,
      visibleInv]
  · simp only [RenderState.startFadeIn, if_neg hst]
    cases hms : rs.m_state <;> simp_all [visibleInv]

theorem visibleInv_startFadeOut (rs : RenderState) (f : ℤ) (t : ℚ)
    (h : visibleInv rs) : visibleInv (rs.startFadeOut f t) := by
  obtain ⟨h1, h2⟩ := h
  by_cases hst : rs.lastFrameNumber < f - 1
  · simp [RenderState.startFadeOut, hst, RenderState.reset, RenderState.new,
      visibleInv]
  · simp only [RenderState.startFadeOut, if_neg hst]
    cases hms : rs.m_state <;> simp_all [visibleInv]

theorem visibleInv_updateFading (rs : RenderState) (t : ℚ) (d : Bool)
    (h : visibleInv rs) : visibleInv (rs.updateFading t d).1 := by
  obtain ⟨h1, h2⟩ := h
  cases hms : rs.m_state <;>
    simp_all [RenderState.updateFading, visibleInv] <;>
    split_ifs <;>
    simp_all <;>
    rfl

theorem visibleInv_checkStartFadeIn (rs : RenderState) (f : ℤ) (t : ℚ)
    (force : Bool) (h : visibleInv rs) :
    visibleInv (rs.checkStartFadeIn f t force).1 := by
  have hs := visibleInv_startFadeIn rs f t h
  simp only [RenderState.checkStartFadeIn]
  split_ifs <;> simp_all [visibleInv]

theorem visibleInv_checkStartFadeOut (rs : RenderState) (f : ℤ) (t : ℚ)
    (force : Bool) (h : visibleInv rs) :
    visibleInv (rs.checkStartFadeOut f t force).1 := by
  have hs := visibleInv_startFadeOut rs f t h
  simp only [RenderState.checkStartFadeOut]
  split_ifs <;> simp_all [visibleInv]

theorem visibleInv_applyOp (rs : RenderState) (o : Op) (h : visibleInv rs) :
    visibleInv (applyOp rs o) := by
  cases o with
  | reset => exact visibleInv_new
  | startFadeIn f t => exact visibleInv_startFadeIn rs f t h
  | startFadeOut f t => exact visibleInv_startFadeOut rs f t h
  | checkStartFadeIn f t force => exact visibleInv_checkStartFadeIn rs f t force h
  | checkStartFadeOut f t force => exact visibleInv_checkStartFadeOut rs f t force h
  | updateFading t d => exact visibleInv_updateFading rs t d h

/-- Claim C6 as amended: `updateFading` returns the visibility flag of the
updated state.  Over every state reachable from a fresh `RenderState` that
flag is true in `FadingIn`/`FadedIn` and false in `Undefined`/`FadedOut`;
for `FadingOut` it keeps the value it had before the fade-out started
(`startFadeOut` never changes it on a non-stale state, and never raises
it), so the return value is true for a fade-out that interrupted a visible
label, but false for a fade-out started from a never-visible (e.g. fresh
`Undefined`) state. -/
theorem updateFading_returns_visible :
    (∀ (rs : RenderState) (t : ℚ) (d : Bool),
      (rs.updateFading t d).2 = (rs.updateFading t d).1.m_visible) ∧
    (∀ (rs : RenderState) (f : ℤ) (t : ℚ), ¬ rs.lastFrameNumber < f - 1 →
      (rs.startFadeOut f t).m_visible = rs.m_visible) ∧
    (∀ (rs : RenderState) (f : ℤ) (t : ℚ), rs.m_visible = false →
      (rs.startFadeOut f t).m_visible = false) ∧
    (∀ ops : List Op, visibleInv (runOps RenderState.new ops)) := by
  refine ⟨updateFading_snd, ?_, ?_, ?_⟩
  · intro rs f t hns
    simp only [RenderState.startFadeOut, hns, ite_false]
    split_ifs <;> rfl
  · intro rs f t hv
    by_cases hst : rs.lastFrameNumber < f - 1 <;>
      simp only [RenderState.startFadeOut, hst, ite_true, ite_false,
        RenderState.reset, RenderState.new] <;>
      split_ifs <;> simp_all
  · intro ops
    induction ops using List.reverseRecOn with
    | nil => exact visibleInv_new
    | append_singleton ops o ih =>
        rw [runOps, List.foldl_append, List.foldl_cons, List.foldl_nil]
        exact visibleInv_applyOp _ o ih

/-- Witness for C6 as amended, at concrete inputs. -/
theorem updateFading_returns_visible_w :
    ((RenderState.new.updateFading 5 false).2 =
      (RenderState.new.updateFading 5 false).1.m_visible) ∧
    ((RenderState.startFadeOut
        { m_state := FadingState.FadedIn, m_visible := true, value := 1,
          startTime := 500, opacity := 1, lastFrameNumber := 0 }
        1 200).m_visible = true) ∧
    ((RenderState.new.startFadeOut 0 100).m_visible = false) ∧
    visibleInv (runOps RenderState.new
      [Op.startFadeOut 0 100, Op.updateFading 150 false]) := by
  refine ⟨updateFading_returns_visible.1 RenderState.new 5 false, ?_,
    updateFading_returns_visible.2.2.1 RenderState.new 0 100 rfl,
    updateFading_returns_visible.2.2.2 _⟩
  exact updateFading_returns_visible.2.1
    { m_state := FadingState.FadedIn, m_visible := true, value := 1,
      startTime := 500, opacity := 1, lastFrameNumber := 0 }
    1 200 (by decide)

/-! Claims about the placement orchestrator model. -/

theorem placeTiles_unvisited (fi : FrameInput) :
    ∀ (ts : List (List TLabel)) (tileIdx : ℕ) (seen : List String)
      (idx i : ℕ), fi.visited (tileIdx + i) = false →
      (placeTiles fi ts tileIdx seen idx).get? i = ts.get? i := by
  intro ts
  induction ts with
  | nil => intro tileIdx seen idx i h; rfl
  | cons tl ts ih =>
      intro tileIdx seen idx i h
      cases i with
      | zero =>
          have h0 : fi.visited tileIdx = false := by simpa using h
          simp [placeTiles, h0]
      | succ i =>
          have h' : fi.visited (tileIdx + 1 + i) = false := by
            have e : tileIdx + 1 + i = tileIdx + (i + 1) := by omega
            rw [e]; exact h
          by_cases hv : fi.visited tileIdx = true
          · simp only [placeTiles, hv, if_true, List.get?_cons_succ]
            exact ih (tileIdx + 1) _ _ i h'
          · have hv' : fi.visited tileIdx = false := by simpa using hv
            simp only [placeTiles, hv', Bool.false_eq_true, if_false,
              List.get?_cons_succ]
            exact ih (tileIdx + 1) _ _ i h'

/-- Claim C8: a placement pass leaves every tile that is not visited this
frame completely untouched — the labels of such a tile, fade states
included, are exactly what they were before the pass (neither advanced nor
reset). -/
theorem unvisited_tile_frozen (fi : FrameInput) (tiles : List (List TLabel))
    (i : ℕ) (h : fi.visited i = false) :
    (placeFrame fi tiles).get? i = tiles.get? i := by
  have hh := placeTiles_unvisited fi tiles 0 [] 0 i (by simpa using h)
  simpa [placeFrame] using hh

/-- Witness for C8 at a concrete non-visited tile. -/
theorem unvisited_tile_frozen_w :
    (placeFrame
        { frameNumber := 1, time := 5, visited := fun _ => false,
          collide := fun _ => false }
        [[{ text := "a", rs := RenderState.new }]]).get? 0 =
      [[{ text := "a", rs := RenderState.new }]].get? 0 :=
  unvisited_tile_frozen _ _ 0 rfl

theorem startFadeOut_state_out (rs : RenderState) (f : ℤ) (t : ℚ) :
    (rs.startFadeOut f t).m_state = FadingState.FadingOut ∨
    (rs.startFadeOut f t).m_state = FadingState.FadedOut := by
  by_cases hst : rs.lastFrameNumber < f - 1
  · simp [RenderState.startFadeOut, if_pos hst, RenderState.reset,
      RenderState.new]
  · simp only [RenderState.startFadeOut, if_neg hst]
    split_ifs with h1 h2
    · exact h1
    · simp
    · simp

theorem startFadeOut_visible_false (rs : RenderState) (f : ℤ) (t : ℚ)
    (h : rs.m_visible = false) : (rs.startFadeOut f t).m_visible = false := by
  by_cases hst : rs.lastFrameNumber < f - 1
  · simp [RenderState.startFadeOut, if_pos hst, RenderState.reset,
      RenderState.new]
  · simp only [RenderState.startFadeOut, if_neg hst]
    split_ifs <;> simp_all

theorem updateFading_stay_out (rs : RenderState) (t : ℚ) (d : Bool)
    (hs : rs.m_state = FadingState.FadingOut ∨
      rs.m_state = FadingState.FadedOut)
    (h : rs.m_visible = false) :
    ((rs.updateFading t d).1.m_state = FadingState.FadingOut ∨
      (rs.updateFading t d).1.m_state = FadingState.FadedOut) ∧
    (rs.updateFading t d).1.m_visible = false := by
  rcases hs with hs | hs
  · simp only [RenderState.updateFading, hs]
    split_ifs <;> simp_all <;> rfl
  · simp [RenderState.updateFading, hs, h]

theorem driveLabel_not_placed (f : ℤ) (t : ℚ) (rs : RenderState)
    (h : rs.m_visible = false) :
    ((driveLabel false f t rs).m_state = FadingState.FadingOut ∨
      (driveLabel false f t rs).m_state = FadingState.FadedOut) ∧
    (driveLabel false f t rs).m_visible = false := by
  have e : (rs.checkStartFadeOut f t true).1 =
      { rs.startFadeOut f t with lastFrameNumber := f } := by
    simp [RenderState.checkStartFadeOut]
  have h1 := startFadeOut_state_out rs f t
  have h2 := startFadeOut_visible_false rs f t h
  have hall := updateFading_stay_out
    { rs.startFadeOut f t with lastFrameNumber := f } t false
    (by simpa using h1) (by simpa using h2)
  simpa [driveLabel, e] using hall

theorem placeFrame_pair (fi : FrameInput) (s : String) (la lb : RenderState)
    (hv : fi.visited 0 = true) :
    placeFrame fi [[{ text := s, rs := la }, { text := s, rs := lb }]] =
      [[{ text := s,
          rs := driveLabel (!(fi.collide 0)) fi.frameNumber fi.time la },
        { text := s,
          rs := driveLabel false fi.frameNumber fi.time lb }]] := by
  simp [placeFrame, placeTiles, driveCandidates, hv]

theorem dedup_run_invariant (s : String) (frames : List FrameInput) :
    ∀ (_hv : ∀ fi ∈ frames, fi.visited 0 = true) (la lb : RenderState),
      lb.m_visible = false → lb.m_state ≠ FadingState.FadedIn →
      ∃ la2 lb2 : RenderState,
        runFrames frames [[{ text := s, rs := la }, { text := s, rs := lb }]] =
          [[{ text := s, rs := la2 }, { text := s, rs := lb2 }]] ∧
        lb2.m_visible = false ∧ lb2.m_state ≠ FadingState.FadedIn := by
  induction frames with
  | nil => intro _hv la lb h1 h2; exact ⟨la, lb, rfl, h1, h2⟩
  | cons fi rest ih =>
      intro hv la lb h1 h2
      have hv0 : fi.visited 0 = true := hv fi (List.mem_cons_self fi rest)
      have hrest : ∀ g ∈ rest, g.visited 0 = true := fun g hg =>
        hv g (List.mem_cons_of_mem fi hg)
      have hdl := driveLabel_not_placed fi.frameNumber fi.time lb h1
      have hstep : runFrames (fi :: rest)
          [[{ text := s, rs := la }, { text := s, rs := lb }]] =
          runFrames rest
            [[{ text := s,
                rs := driveLabel (!(fi.collide 0)) fi.frameNumber fi.time la },
              { text := s,
                rs := driveLabel false fi.frameNumber fi.time lb }]] := by
        rw [runFrames, List.foldl_cons, ← runFrames,
          placeFrame_pair fi s la lb hv0]
      rw [hstep]
      exact ih hrest _ _ hdl.2
        (by rcases hdl.1 with h | h <;> simp [h])

/-- Claim C7: two candidates of the same always-visited tile sharing
identical text, ranked in list order, over any frame sequence and any
collision pattern (in particular the one of non-overlapping boxes, where no
collision ever occurs): after every frame the lower-ranked candidate's
visibility flag is still false — it is never rendered, since the model only
emits render calls for candidates whose fade state reports visible — and
its discrete state is never `FadedIn`; only the higher-ranked candidate can
ever reach `FadedIn`. -/
theorem dedup_second_never_fades_in (s : String) (frames : List FrameInput)
    (hv : ∀ fi ∈ frames, fi.visited 0 = true) :
    ∃ la2 lb2 : RenderState,
      runFrames frames
        [[{ text := s, rs := RenderState.new },
          { text := s, rs := RenderState.new }]] =
        [[{ text := s, rs := la2 }, { text := s, rs := lb2 }]] ∧
      lb2.m_visible = false ∧ lb2.m_state ≠ FadingState.FadedIn :=
  dedup_run_invariant s frames hv RenderState.new RenderState.new rfl
    (by simp [RenderState.new])

/-- Witness for C7 at a concrete two-frame run. -/
theorem dedup_second_never_fades_in_w :
    ∃ la2 lb2 : RenderState,
      runFrames
        [{ frameNumber := 1, time := 1, visited := fun _ => true,
           collide := fun _ => false },
         { frameNumber := 2, time := 267, visited := fun _ => true,
           collide := fun _ => false }]
        [[{ text := "P", rs := RenderState.new },
          { text := "P", rs := RenderState.new }]] =
        [[{ text := "P", rs := la2 }, { text := "P", rs := lb2 }]] ∧
      lb2.m_visible = false ∧ lb2.m_state ≠ FadingState.FadedIn :=
  dedup_second_never_fades_in "P" _ (by
    intro fi hfi
    simp only [List.mem_cons, List.not_mem_nil, or_false] at hfi
    rcases hfi with h | h <;> subst h <;> rfl)

theorem checkStartFadeIn_fresh (f : ℤ) (t : ℚ) :
    (RenderState.new.checkStartFadeIn f t false).1 =
      { m_state := FadingState.FadingIn, m_visible := true, value := 0,
        startTime := t, opacity := 0, lastFrameNumber := f } := by
  by_cases hst : RenderState.new.lastFrameNumber < f - 1 <;>
    simp [RenderState.checkStartFadeIn, RenderState.startFadeIn,
      RenderState.reset, RenderState.new, hst]

theorem checkStartFadeIn_noop (rs : RenderState) (f : ℤ) (t : ℚ)
    (hf : rs.m_state = FadingState.FadingIn)
    (hns : ¬ rs.lastFrameNumber < f - 1) :
    (rs.checkStartFadeIn f t false).1 = { rs with lastFrameNumber := f } := by
  simp [RenderState.checkStartFadeIn, hf, hns]

theorem updateFading_step_in (rs : RenderState) (t : ℚ)
    (hf : rs.m_state = FadingState.FadingIn) (h0 : rs.startTime ≠ 0)
    (hlt : t - rs.startTime < DEFAULT_FADE_TIME) :
    rs.updateFading t false =
      ({ rs with
         value := (t - rs.startTime) / DEFAULT_FADE_TIME
         opacity := fadeInOpacity ((t - rs.startTime) / DEFAULT_FADE_TIME) },
       rs.m_visible) := by
  simp [RenderState.updateFading, hf, h0, not_le.mpr hlt, fadeInOpacity]

theorem updateFading_snapend_in (rs : RenderState) (t : ℚ)
    (hf : rs.m_state = FadingState.FadingIn) (h0 : rs.startTime ≠ 0)
    (hc : DEFAULT_FADE_TIME ≤ t - rs.startTime) :
    rs.updateFading t false =
      ({ rs with
         value := 1
         opacity := 1
         m_state := FadingState.FadedIn
         m_visible := true },
       true) := by
  simp [RenderState.updateFading, hf, h0, hc]
  rfl

theorem placeFrame_single (fi : FrameInput) (s : String) (l : RenderState)
    (hv : fi.visited 0 = true) :
    placeFrame fi [[{ text := s, rs := l }]] =
      [[{ text := s,
          rs := driveLabel (!(fi.collide 0)) fi.frameNumber fi.time l }]] := by
  simp [placeFrame, placeTiles, driveCandidates, hv]

theorem fadeCycle_d1 : driveLabel true 1 1 RenderState.new =
    { m_state := FadingState.FadingIn, m_visible := true, value := 0,
      startTime := 1, opacity := 0, lastFrameNumber := 1 } := by
  rw [driveLabel]
  simp only [if_true, ite_true]
  rw [checkStartFadeIn_fresh 1 1]
  rw [updateFading_step_in _ 1 rfl (by norm_num)
    (by norm_num [DEFAULT_FADE_TIME])]
  norm_num [fadeInOpacity, smootherStep, clamp, qmin, qmax,
    DEFAULT_FADE_TIME]

theorem fadeCycle_d2 : driveLabel true 2 267
    { m_state := FadingState.FadingIn, m_visible := true, value := 0,
      startTime := 1, opacity := 0, lastFrameNumber := 1 } =
    { m_state := FadingState.FadingIn, m_visible := true, value := 133 / 400,
      startTime := 1, opacity := fadeInOpacity (133 / 400),
      lastFrameNumber := 2 } := by
  rw [driveLabel]
  simp only [if_true, ite_true]
  rw [checkStartFadeIn_noop _ 2 267 rfl (by decide)]
  rw [updateFading_step_in _ 267 rfl (by norm_num)
    (by norm_num [DEFAULT_FADE_TIME])]
  norm_num [fadeInOpacity, smootherStep, clamp, qmin, qmax,
    DEFAULT_FADE_TIME]

theorem fadeCycle_d3 : driveLabel true 3 400
    { m_state := FadingState.FadingIn, m_visible := true, value := 133 / 400,
      startTime := 1, opacity := fadeInOpacity (133 / 400),
      lastFrameNumber := 2 } =
    { m_state := FadingState.FadingIn, m_visible := true, value := 399 / 800,
      startTime := 1, opacity := fadeInOpacity (399 / 800),
      lastFrameNumber := 3 } := by
  rw [driveLabel]
  simp only [if_true, ite_true]
  rw [checkStartFadeIn_noop _ 3 400 rfl (by decide)]
  rw [updateFading_step_in _ 400 rfl (by norm_num)
    (by norm_num [DEFAULT_FADE_TIME])]
  norm_num [fadeInOpacity, smootherStep, clamp, qmin, qmax,
    DEFAULT_FADE_TIME]

theorem fadeCycle_d4 : driveLabel true 4 801
    { m_state := FadingState.FadingIn, m_visible := true, value := 399 / 800,
      startTime := 1, opacity := fadeInOpacity (399 / 800),
      lastFrameNumber := 3 } =
    { m_state := FadingState.FadedIn, m_visible := true, value := 1,
      startTime := 1, opacity := 1, lastFrameNumber := 4 } := by
  rw [driveLabel]
  simp only [if_true, ite_true]
  rw [checkStartFadeIn_noop _ 4 801 rfl (by decide)]
  rw [updateFading_snapend_in _ 801 rfl (by norm_num)
    (by norm_num [DEFAULT_FADE_TIME])]

/-- Claim C9: in the end-to-end scenario of one tile with a single
point-text label, placed without collisions at frame times 1, 267, 400 and
801 (fade duration 800), the observed per-frame discrete states are
`FadingIn`, `FadingIn`, `FadingIn`, `FadedIn`, with opacity strictly
increasing over the `FadingIn` frames and exactly `1` at the final
frame. -/
theorem fade_in_cycle :
    (fadeCycleState 1).map RenderState.m_state =
      some FadingState.FadingIn ∧
    (fadeCycleState 2).map RenderState.m_state =
      some FadingState.FadingIn ∧
    (fadeCycleState 3).map RenderState.m_state =
      some FadingState.FadingIn ∧
    (fadeCycleState 4).map RenderState.m_state =
      some FadingState.FadedIn ∧
    ((fadeCycleState 1).map RenderState.opacity).getD 0 <
      ((fadeCycleState 2).map RenderState.opacity).getD 0 ∧
    ((fadeCycleState 2).map RenderState.opacity).getD 0 <
      ((fadeCycleState 3).map RenderState.opacity).getD 0 ∧
    (fadeCycleState 4).map RenderState.opacity = some 1 := by
  have r1 : fadeCycleRun 1 =
      [[⟨"P", ⟨FadingState.FadingIn, true, 0, 1, 0, 1⟩⟩]] := by
    simp only [fadeCycleRun, fadeCycleFrames, List.take, runFrames,
      List.foldl_cons, List.foldl_nil]
    rw [placeFrame_single _ _ _ rfl]
    norm_num [fadeCycle_d1]
  have r2 : fadeCycleRun 2 =
      [[⟨"P", ⟨FadingState.FadingIn, true, 133 / 400, 1,
        fadeInOpacity (133 / 400), 2⟩⟩]] := by
    simp only [fadeCycleRun, fadeCycleFrames, List.take, runFrames,
      List.foldl_cons, List.foldl_nil]
    rw [placeFrame_single _ _ _ rfl]
    norm_num [fadeCycle_d1]
    rw [placeFrame_single _ _ _ rfl]
    norm_num [fadeCycle_d2]
  have r3 : fadeCycleRun 3 =
      [[⟨"P", ⟨FadingState.FadingIn, true, 399 / 800, 1,
        fadeInOpacity (399 / 800), 3⟩⟩]] := by
    simp only [fadeCycleRun, fadeCycleFrames, List.take, runFrames,
      List.foldl_cons, List.foldl_nil]
    rw [placeFrame_single _ _ _ rfl]
    norm_num [fadeCycle_d1]
    rw [placeFrame_single _ _ _ rfl]
    norm_num [fadeCycle_d2]
    rw [placeFrame_single _ _ _ rfl]
    norm_num [fadeCycle_d3]
  have r4 : fadeCycleRun 4 =
      [[⟨"P", ⟨FadingState.FadedIn, true, 1, 1, 1, 4⟩⟩]] := by
    simp only [fadeCycleRun, fadeCycleFrames, List.take, runFrames,
      List.foldl_cons, List.foldl_nil]
    rw [placeFrame_single _ _ _ rfl]
    norm_num [fadeCycle_d1]
    rw [placeFrame_single _ _ _ rfl]
    norm_num [fadeCycle_d2]
    rw [placeFrame_single _ _ _ rfl]
    norm_num [fadeCycle_d3]
    rw [placeFrame_single _ _ _ rfl]
    norm_num [fadeCycle_d4]
  refine ⟨?_, ?_, ?_, ?_, ?_, ?_, ?_⟩
  · rw [fadeCycleState, r1]; rfl
  · rw [fadeCycleState, r2]; rfl
  · rw [fadeCycleState, r3]; rfl
  · rw [fadeCycleState, r4]; rfl
  · rw [fadeCycleState, fadeCycleState, r1, r2]
    norm_num [fadeInOpacity, smootherStep, clamp, qmin, qmax]
  · rw [fadeCycleState, fadeCycleState, r2, r3]
    norm_num [fadeInOpacity, smootherStep, clamp, qmin, qmax]
  · rw [fadeCycleState, r4]; rfl

end Harp
